import Mathlib

namespace Beeswarm

/-- Result of a JSON parse: the value model for decoded payload data. -/
inductive JVal where
  | null : JVal
  | bool : Bool → JVal
  | num : Int → JVal
  | str : String → JVal
  | arr : List JVal → JVal
  | obj : List (String × JVal) → JVal
deriving Repr

mutual

def JVal.beq : JVal → JVal → Bool
  | .null, .null => true
  | .bool a, .bool b => a == b
  | .num a, .num b => a == b
  | .str a, .str b => a == b
  | .arr xs, .arr ys => JVal.beqList xs ys
  | .obj xs, .obj ys => JVal.beqObj xs ys
  | _, _ => false

def JVal.beqList : List JVal → List JVal → Bool
  | [], [] => true
  | x :: xs, y :: ys => JVal.beq x y && JVal.beqList xs ys
  | _, _ => false

def JVal.beqObj : List (String × JVal) → List (String × JVal) → Bool
  | [], [] => true
  | (k, v) :: xs, (l, w) :: ys => k == l && JVal.beq v w && JVal.beqObj xs ys
  | _, _ => false

end

mutual

theorem JVal.beq_refl : ∀ a : JVal, JVal.beq a a = true
  | .null => rfl
  | .bool a => by simp [JVal.beq]
  | .num a => by simp [JVal.beq]
  | .str a => by simp [JVal.beq]
  | .arr xs => by simp [JVal.beq, JVal.beqList_refl xs]
  | .obj xs => by simp [JVal.beq, JVal.beqObj_refl xs]

theorem JVal.beqList_refl : ∀ xs : List JVal, JVal.beqList xs xs = true
  | [] => rfl
  | x :: xs => by simp [JVal.beqList, JVal.beq_refl x, JVal.beqList_refl xs]

theorem JVal.beqObj_refl : ∀ xs : List (String × JVal), JVal.beqObj xs xs = true
  | [] => rfl
  | (k, v) :: xs => by simp [JVal.beqObj, JVal.beq_refl v, JVal.beqObj_refl xs]

end

mutual

theorem JVal.eq_of_beq : ∀ a b : JVal, JVal.beq a b = true → a = b
  | .null, .null, _ => rfl
  | .bool a, .bool b, h => by simpa [JVal.beq] using h
  | .num a, .num b, h => by simpa [JVal.beq] using h
  | .str a, .str b, h => by simpa [JVal.beq] using h
  | .arr xs, .arr ys, h => by
      simp only [JVal.beq] at h
      simp [JVal.eqList_of_beq xs ys h]
  | .obj xs, .obj ys, h => by
      simp only [JVal.beq] at h
      simp [JVal.eqObj_of_beq xs ys h]

theorem JVal.eqList_of_beq : ∀ xs ys : List JVal, JVal.beqList xs ys = true → xs = ys
  | [], [], _ => rfl
  | x :: xs, y :: ys, h => by
      simp only [JVal.beqList, Bool.and_eq_true] at h
      simp [JVal.eq_of_beq x y h.1, JVal.eqList_of_beq xs ys h.2]

theorem JVal.eqObj_of_beq :
    ∀ xs ys : List (String × JVal), JVal.beqObj xs ys = true → xs = ys
  | [], [], _ => rfl
  | (k, v) :: xs, (l, w) :: ys, h => by
      simp only [JVal.beqObj, Bool.and_eq_true, beq_iff_eq] at h
      simp [h.1.1, JVal.eq_of_beq v w h.1.2, JVal.eqObj_of_beq xs ys h.2]

end

instance : DecidableEq JVal := fun a b =>
  if h : JVal.beq a b = true then .isTrue (JVal.eq_of_beq a b h)
  else .isFalse (fun he => h (he ▸ JVal.beq_refl a))

example : (JVal.arr [JVal.num 1] = JVal.arr [JVal.num 1]) := by decide
example : (JVal.obj [("a", JVal.null)] ≠ JVal.obj []) := by decide

/-- The Python exception kinds that the code under analysis can raise. -/
inductive PyError where
  | unicodeDecodeError : PyError
  | valueError : PyError
  | keyError : PyError
  | typeError : PyError
  | assertionError : PyError
  | noResultFound : PyError
  | multipleResultsFound : PyError
deriving Repr, DecidableEq

/-- The opening-brace character, written via its code point. -/
def lbrace : Char := Char.ofNat 123

/-- The closing-brace character, written via its code point. -/
def rbrace : Char := Char.ofNat 125

/-- Whether a byte is a UTF-8 continuation byte (0x80-0xBF). -/
def utf8Cont (b : Nat) : Bool := 0x80 ≤ b && b ≤ 0xBF

/-- Strict UTF-8 decoding of a byte sequence; `none` models `UnicodeDecodeError`. -/
def utf8Decode? : List Nat → Option (List Char)
  | [] => some []
  | b1 :: rest =>
    if b1 ≤ 0x7F then
      (utf8Decode? rest).map (fun cs => Char.ofNat b1 :: cs)
    else if 0xC2 ≤ b1 && b1 ≤ 0xDF then
      match rest with
      | b2 :: rest2 =>
        if utf8Cont b2 then
          (utf8Decode? rest2).map (fun cs =>
            Char.ofNat ((b1 - 0xC0) * 0x40 + (b2 - 0x80)) :: cs)
        else none
      | [] => none
    else if 0xE0 ≤ b1 && b1 ≤ 0xEF then
      match rest with
      | b2 :: b3 :: rest3 =>
        if (if b1 = 0xE0 then 0xA0 else 0x80) ≤ b2 &&
            b2 ≤ (if b1 = 0xED then 0x9F else 0xBF) && utf8Cont b3 then
          (utf8Decode? rest3).map (fun cs =>
            Char.ofNat ((b1 - 0xE0) * 0x1000 + (b2 - 0x80) * 0x40 + (b3 - 0x80)) :: cs)
        else none
      | _ => none
    else if 0xF0 ≤ b1 && b1 ≤ 0xF4 then
      match rest with
      | b2 :: b3 :: b4 :: rest4 =>
        if (if b1 = 0xF0 then 0x90 else 0x80) ≤ b2 &&
            b2 ≤ (if b1 = 0xF4 then 0x8F else 0xBF) && utf8Cont b3 && utf8Cont b4 then
          (utf8Decode? rest4).map (fun cs =>
            Char.ofNat ((b1 - 0xF0) * 0x40000 + (b2 - 0x80) * 0x1000 +
              (b3 - 0x80) * 0x40 + (b4 - 0x80)) :: cs)
        else none
      | _ => none
    else none

/-- Latin-1 (ISO-8859-1) decoding: every byte maps directly to its code point,
so this decoding never fails (models Python `unicode(s, "ISO-8859-1")`). -/
def latin1Decode (bs : List Nat) : List Char := bs.map Char.ofNat

/-- Skip JSON whitespace. -/
def skipWs : List Char → List Char
  | c :: cs =>
    if c = ' ' ∨ c = '\t' ∨ c = '\n' ∨ c = '\r' then skipWs cs else c :: cs
  | [] => []

/-- Value of a hexadecimal digit. -/
def hexDigit? (c : Char) : Option Nat :=
  if '0' ≤ c ∧ c ≤ '9' then some (c.toNat - 48)
  else if 'a' ≤ c ∧ c ≤ 'f' then some (c.toNat - 87)
  else if 'A' ≤ c ∧ c ≤ 'F' then some (c.toNat - 55)
  else none

/-- Scan the remainder of a JSON string literal (the opening quote already
consumed), handling the standard escape sequences; returns the decoded
characters and the input after the closing quote. -/
def scanStringRest : List Char → Option (List Char × List Char)
  | [] => none
  | '"' :: cs => some ([], cs)
  | '\\' :: 'u' :: h1 :: h2 :: h3 :: h4 :: cs => do
    let d1 ← hexDigit? h1
    let d2 ← hexDigit? h2
    let d3 ← hexDigit? h3
    let d4 ← hexDigit? h4
    let (s, r) ← scanStringRest cs
    some (Char.ofNat (((d1 * 16 + d2) * 16 + d3) * 16 + d4) :: s, r)
  | '\\' :: e :: cs =>
    let c? : Option Char :=
      if e = '"' then some '"'
      else if e = '\\' then some '\\'
      else if e = '/' then some '/'
      else if e = 'b' then some (Char.ofNat 8)
      else if e = 'f' then some (Char.ofNat 12)
      else if e = 'n' then some '\n'
      else if e = 'r' then some '\r'
      else if e = 't' then some '\t'
      else none
    match c? with
    | some c => (scanStringRest cs).map (fun (s, r) => (c :: s, r))
    | none => none
  | c :: cs => (scanStringRest cs).map (fun (s, r) => (c :: s, r))

/-- Accumulate a run of decimal digits. -/
def scanDigitsAcc : Nat → List Char → Nat × List Char
  | acc, c :: cs =>
    if c.isDigit then scanDigitsAcc (acc * 10 + (c.toNat - 48)) cs else (acc, c :: cs)
  | acc, [] => (acc, [])

/-- Scan a JSON number.  The payloads of this protocol only carry integers
(ports); fractional and exponent forms are outside the modelled fragment. -/
def scanNum : List Char → Option (JVal × List Char)
  | '-' :: c :: cs =>
    if c.isDigit then
      let (n, rest) := scanDigitsAcc (c.toNat - 48) cs
      some (.num (-(n : Int)), rest)
    else none
  | c :: cs =>
    if c.isDigit then
      let (n, rest) := scanDigitsAcc (c.toNat - 48) cs
      some (.num (n : Int), rest)
    else none
  | [] => none

mutual

/-- Fuel-indexed JSON value scanner. -/
def parseVal : Nat → List Char → Option (JVal × List Char)
  | 0, _ => none
  | fuel + 1, cs =>
    match skipWs cs with
    | 'n' :: 'u' :: 'l' :: 'l' :: rest => some (.null, rest)
    | 't' :: 'r' :: 'u' :: 'e' :: rest => some (.bool true, rest)
    | 'f' :: 'a' :: 'l' :: 's' :: 'e' :: rest => some (.bool false, rest)
    | '"' :: rest => (scanStringRest rest).map (fun (s, r) => (.str (String.mk s), r))
    | '[' :: rest =>
      (match skipWs rest with
       | ']' :: rest2 => some (.arr [], rest2)
       | cs2 => (parseElems fuel cs2).map (fun (vs, r) => (.arr vs, r)))
    | c :: rest =>
      if c = lbrace then
        match skipWs rest with
        | d :: rest2 =>
          if d = rbrace then some (.obj [], rest2)
          else (parseMembers fuel (d :: rest2)).map (fun (ms, r) => (.obj ms, r))
        | [] => none
      else scanNum (c :: rest)
    | [] => none

/-- Fuel-indexed scanner for the elements of a JSON array (after `[`). -/
def parseElems : Nat → List Char → Option (List JVal × List Char)
  | 0, _ => none
  | fuel + 1, cs => do
    let (v, r) ← parseVal fuel cs
    match skipWs r with
    | ',' :: r2 => (parseElems fuel r2).map (fun (vs, r3) => (v :: vs, r3))
    | ']' :: r2 => some ([v], r2)
    | _ => none

/-- Fuel-indexed scanner for the members of a JSON object (after an opening
brace and its whitespace). -/
def parseMembers : Nat → List Char → Option (List (String × JVal) × List Char)
  | 0, _ => none
  | fuel + 1, cs =>
    match skipWs cs with
    | '"' :: r => do
      let (k, r2) ← scanStringRest r
      match skipWs r2 with
      | ':' :: r3 => do
        let (v, r4) ← parseVal fuel r3
        match skipWs r4 with
        | ',' :: r5 => (parseMembers fuel r5).map (fun (ms, r6) => ((String.mk k, v) :: ms, r6))
        | d :: r5 => if d = rbrace then some ([(String.mk k, v)], r5) else none
        | [] => none
      | _ => none
    | _ => none

end

/-- Parse a whole character sequence as one JSON document; a parse failure
models Python `ValueError`. -/
def jsonParse (cs : List Char) : Except PyError JVal :=
  match parseVal (cs.length + 1) cs with
  | some (v, rest) => if skipWs rest = [] then .ok v else .error .valueError
  | none => .error .valueError

/-- Python 2 `json.loads` applied to a byte string: the bytes are decoded as
UTF-8 (failure raises `UnicodeDecodeError`) and the text is parsed as JSON
(failure raises `ValueError`). -/
def json_loads (session_json : List Nat) : Except PyError JVal :=
  match utf8Decode? session_json with
  | some cs => jsonParse cs
  | none => .error .unicodeDecodeError

/-- Lines 71-74 of `persist_session`: `json.loads(session_json)` guarded by
`except UnicodeDecodeError`, retried on the Latin-1 decoding of the payload.
Any error of the retry (or any non-Unicode error of the first attempt)
propagates. -/
def decodePayload (session_json : List Nat) : Except PyError JVal :=
  match json_loads session_json with
  | .error .unicodeDecodeError => jsonParse (latin1Decode session_json)
  | r => r

/-- Bytes of an ASCII string, for writing concrete payloads. -/
def asciiBytes (s : String) : List Nat := s.data.map Char.toNat

/-- Exactly `n` decimal digits, accumulated onto `acc`. -/
def scanNDigits : Nat → Nat → List Char → Option (Nat × List Char)
  | 0, acc, cs => some (acc, cs)
  | n + 1, acc, c :: cs =>
    if c.isDigit then scanNDigits n (acc * 10 + (c.toNat - 48)) cs else none
  | _ + 1, _, [] => none

/-- One or two decimal digits, greedily; models the one-or-two-digit numeric
fields of `strptime` (`%m`, `%d`, `%H`, `%M`, `%S`). -/
def scan1or2Digits : List Char → Option (Nat × List Char)
  | c :: d :: cs =>
    if c.isDigit then
      if d.isDigit then some ((c.toNat - 48) * 10 + (d.toNat - 48), cs)
      else some (c.toNat - 48, d :: cs)
    else none
  | [c] => if c.isDigit then some (c.toNat - 48, []) else none
  | [] => none

/-- Expect one literal character. -/
def expectChar (c : Char) : List Char → Option (List Char)
  | d :: cs => if d = c then some cs else none
  | [] => none

/-- `%f`: one to six fractional digits, right-padded with zeros to
microseconds. -/
def scanFrac : List Char → Option (Nat × List Char)
  | cs =>
    let ds := cs.takeWhile Char.isDigit
    let rest := cs.dropWhile Char.isDigit
    if 1 ≤ ds.length ∧ ds.length ≤ 6 then
      some ((ds.foldl (fun a c => a * 10 + (c.toNat - 48)) 0) * 10 ^ (6 - ds.length), rest)
    else none

/-- Gregorian leap year. -/
def isLeap (y : Nat) : Bool := (y % 4 = 0 ∧ y % 100 ≠ 0) ∨ y % 400 = 0

/-- Days in a month of a given year. -/
def daysInMonth (y m : Nat) : Nat :=
  if m = 2 then (if isLeap y then 29 else 28)
  else if m = 4 ∨ m = 6 ∨ m = 9 ∨ m = 11 then 30
  else 31

/-- Days from 1970-01-01 to the given civil date (proleptic Gregorian). -/
def daysFromCivil (y m d : Nat) : Int :=
  let y' : Int := if m ≤ 2 then (y : Int) - 1 else (y : Int)
  let era : Int := Int.fdiv y' 400
  let yoe : Int := y' - era * 400
  let mp : Int := if 2 < m then (m : Int) - 3 else (m : Int) + 9
  let doy : Int := Int.fdiv (153 * mp + 2) 5 + (d : Int) - 1
  let doe : Int := yoe * 365 + Int.fdiv yoe 4 - Int.fdiv yoe 100 + doy
  era * 146097 + doe - 719468

/-- The `%Y-%m-%d` prefix of the format: year, month, day and the rest. -/
def scanDate (cs : List Char) : Option (Nat × Nat × Nat × List Char) := do
  let (y, r1) ← scanNDigits 4 0 cs
  let r2 ← expectChar '-' r1
  let (mo, r3) ← scan1or2Digits r2
  let r4 ← expectChar '-' r3
  let (d, r5) ← scan1or2Digits r4
  some (y, mo, d, r5)

/-- The `%H:%M:%S.%f` suffix of the format: hour, minute, second,
microseconds and the rest. -/
def scanTime (cs : List Char) : Option (Nat × Nat × Nat × Nat × List Char) := do
  let (h, r7) ← scan1or2Digits cs
  let r8 ← expectChar ':' r7
  let (mi, r9) ← scan1or2Digits r8
  let r10 ← expectChar ':' r9
  let (s, r11) ← scan1or2Digits r10
  let r12 ← expectChar '.' r11
  let (frac, r13) ← scanFrac r12
  some (h, mi, s, frac, r13)

/-- The field-range validation performed by the `datetime` constructor, and
the conversion to microseconds since 1970-01-01T00:00:00.000000; `rest` must
be empty (`strptime` rejects unconverted trailing data). -/
def buildMicros (y mo d h mi s frac : Nat) (rest : List Char) : Option Int :=
  if rest = [] ∧ 1 ≤ y ∧ 1 ≤ mo ∧ mo ≤ 12 ∧ 1 ≤ d ∧ d ≤ daysInMonth y mo ∧
      h ≤ 23 ∧ mi ≤ 59 ∧ s ≤ 59 then
    some ((daysFromCivil y mo d * 86400 +
      ((h * 3600 + mi * 60 + s : Nat) : Int)) * 1000000 + (frac : Int))
  else none

/-- `datetime.strptime(s, '%Y-%m-%dT%H:%M:%S.%f')`, as the number of
microseconds since 1970-01-01T00:00:00.000000 of the resulting naive
datetime; any mismatch or out-of-range field is a `ValueError`. -/
def strptimeChars (cs : List Char) : Option Int :=
  match scanDate cs with
  | none => none
  | some (y, mo, d, r5) =>
    match expectChar 'T' r5 with
    | none => none
    | some r6 =>
      match scanTime r6 with
      | none => none
      | some (h, mi, s, frac, rest) => buildMicros y mo d h mi s frac rest

/-- `datetime.strptime` on a JSON value: Python raises `TypeError` when the
argument is not a string, `ValueError` when it does not match the format. -/
def strptime (v : JVal) : Except PyError Int :=
  match v with
  | .str s =>
    match strptimeChars s.data with
    | some t => .ok t
    | none => .error .valueError
  | _ => .error .typeError

/-- Python truthiness of a JSON-decoded value (`not data[k]`). -/
def pyFalsy : JVal → Bool
  | .null => true
  | .bool b => !b
  | .num n => decide (n = 0)
  | .str s => decide (s = "")
  | .arr xs => xs.isEmpty
  | .obj xvs => xvs.isEmpty

/-- Python subscript `data[k]` on a JSON-decoded value: `KeyError` when the
key is absent, `TypeError` when the value is not a dict.  Duplicate keys keep
the last binding, as `dict` construction does. -/
def dictGet (data : JVal) (k : String) : Except PyError JVal :=
  match data with
  | .obj fields =>
    match fields.reverse.find? (fun kv => kv.1 == k) with
    | some kv => .ok kv.2
    | none => .error .keyError
  | _ => .error .typeError

/-- Python `data.get(k, dflt)`. -/
def dictGetD (data : JVal) (k : String) (dflt : JVal) : Except PyError JVal :=
  match data with
  | .obj fields =>
    match fields.reverse.find? (fun kv => kv.1 == k) with
    | some kv => .ok kv.2
    | none => .ok dflt
  | _ => .error .typeError

/-- Python iteration over a JSON array (`for entry in data[k]`): anything but
a list is a `TypeError` in the modelled fragment. -/
def asList : JVal → Except PyError (List JVal)
  | .arr xs => .ok xs
  | _ => .error .typeError

/-- SQLAlchemy `Query.one()`: exactly one row or an error. -/
def queryOne {α : Type} (xs : List α) : Except PyError α :=
  match xs with
  | [x] => .ok x
  | [] => .error .noResultFound
  | _ => .error .multipleResultsFound

/-- Modelled from the spec (§3, Glossary): the discriminator tag
distinguishing the `Session` (honeypot-observed) and `BaitSession` ORM
variants; the `beeswarm.server.db.entities` module is not part of the
analysed source. -/
inductive Discriminator where
  | honeypot : Discriminator
  | bait : Discriminator
deriving Repr, DecidableEq

/-- Modelled from the spec (§3): an Authentication entity — identifier,
username, password, success flag, timestamp.  The JSON-typed fields hold
whatever value the payload carried. -/
structure Authentication where
  id : JVal
  username : JVal
  password : JVal
  successful : JVal
  timestamp : Int
deriving Repr, DecidableEq

/-- Modelled from the spec (§3): a Transcript entry — timestamp, direction,
raw data. -/
structure Transcript where
  timestamp : Int
  direction : JVal
  data : JVal
deriving Repr, DecidableEq

/-- Modelled from the spec (§3): the Session entity with its two variants
collapsed into one record; bait-only fields are `Option`-valued and `none`
for honeypot sessions. -/
structure Session where
  id : JVal
  discriminator : Discriminator
  classification : String
  protocol : JVal
  timestamp : Int
  received : Int
  destination_ip : JVal
  destination_port : JVal
  source_ip : JVal
  source_port : JVal
  honeypot_id : String
  authentication : List Authentication
  transcript : List Transcript
  session_data : JVal
  did_connect : Option JVal
  did_login : Option JVal
  did_complete : Option JVal
  client_id : Option String
deriving Repr, DecidableEq

/-- Modelled from the spec (§3): a bait Client identity record. -/
structure Client where
  id : String
  last_activity : Option Int
deriving Repr, DecidableEq

/-- The durable store as seen by the engine: session rows, the known honeypot
and client identifiers, and the classification rows by type name. -/
structure DB where
  sessions : List Session
  honeypots : List String
  clients : List Client
  classifications : List String
deriving Repr, DecidableEq

/-- Modelled from the spec (§6): the topic tag of honeypot-observed session
events (`Messages.SESSION_HONEYPOT`; the `Messages` enumeration is not part
of the analysed source). -/
def SESSION_HONEYPOT : String := "session_honeypot"

/-- Modelled from the spec (§6): the topic tag of bait-observed session
events (`Messages.SESSION_CLIENT`). -/
def SESSION_CLIENT : String := "session_client"

/-- `extract_auth_entity` (lines 137-143): username and password default to
the empty string; id, success flag and timestamp are required. -/
def extract_auth_entity (auth_data : JVal) : Except PyError Authentication := do
  let username ← dictGetD auth_data "username" (.str "")
  let password ← dictGetD auth_data "password" (.str "")
  let idv ← dictGet auth_data "id"
  let successful ← dictGet auth_data "successful"
  let tsv ← dictGet auth_data "timestamp"
  let ts ← strptime tsv
  .ok { id := idv, username := username, password := password,
        successful := successful, timestamp := ts }

/-- The transcript loop of the honeypot branch (lines 85-89). -/
def extractTranscripts (entries : List JVal) : Except PyError (List Transcript) :=
  entries.mapM (fun entry => do
    let tsv ← dictGet entry "timestamp"
    let transcript_timestamp ← strptime tsv
    let direction ← dictGet entry "direction"
    let dat ← dictGet entry "data"
    .ok ({ timestamp := transcript_timestamp, direction := direction, data := dat } : Transcript))

/-- The shared tail of `persist_session` (lines 114-126): populate the common
session columns from the record and insert-and-commit the new row.
`session_data` is never assigned by `persist_session`, so it keeps its column
default. -/
def finishSession (st : DB) (data : JVal) (classification : String) (honeypot : String)
    (disc : Discriminator) (transcript : List Transcript)
    (authentication : List Authentication)
    (did_connect did_login did_complete : Option JVal) (client_id : Option String)
    (nowUtc : Int) : Except PyError (DB × Option Session) := do
  let idv ← dictGet data "id"
  let tsv ← dictGet data "timestamp"
  let ts ← strptime tsv
  let protocol ← dictGet data "protocol"
  let dip ← dictGet data "destination_ip"
  let dport ← dictGet data "destination_port"
  let sip ← dictGet data "source_ip"
  let sport ← dictGet data "source_port"
  let session : Session := {
    id := idv, discriminator := disc, classification := classification,
    protocol := protocol, timestamp := ts, received := nowUtc,
    destination_ip := dip, destination_port := dport,
    source_ip := sip, source_port := sport, honeypot_id := honeypot,
    authentication := authentication, transcript := transcript,
    session_data := JVal.null,
    did_connect := did_connect, did_login := did_login,
    did_complete := did_complete, client_id := client_id }
  .ok ({ st with sessions := st.sessions ++ [session] }, some session)

/-- Lines 70-126 of `persist_session`: decode, resolve the `pending`
classification and the honeypot reference, build the variant-specific entity,
and commit it.  Returns the committed store and the new session, or the
unchanged store and `none` when the record is dropped (failed-bait gate,
unknown topic).  `cfg` is the configuration answer for
`ignore_failed_bait_session` (the configuration service is external);
`nowLocal`/`nowUtc` stand for `datetime.now()`/`datetime.utcnow()`. -/
def persistPhase1 (st : DB) (cfg : Bool) (nowLocal nowUtc : Int)
    (session_json : List Nat) (session_type : String) :
    Except PyError (DB × Option Session) := do
  let data ← decodePayload session_json
  let classification ← queryOne (st.classifications.filter (fun c => c == "pending"))
  let hid ← dictGet data "honeypot_id"
  -- assert data['honeypot_id'] is not None
  if hid = JVal.null then Except.error PyError.assertionError else do
  let honeypot ← queryOne (st.honeypots.filter (fun h => JVal.str h == hid))
  if session_type = SESSION_HONEYPOT then do
    let entries ← asList (← dictGet data "transcript")
    let transcript ← extractTranscripts entries
    let auths ← asList (← dictGet data "login_attempts")
    let authentication ← auths.mapM extract_auth_entity
    finishSession st data classification honeypot .honeypot transcript authentication
      none none none none nowUtc
  else if session_type = SESSION_CLIENT then do
    let didCompleteV ← dictGet data "did_complete"
    if pyFalsy didCompleteV && cfg then
      -- logger.debug('Ignore failed bait session.'); return
      .ok (st, none)
    else do
      let cid ← dictGet data "client_id"
      let client ← queryOne (st.clients.filter (fun c => JVal.str c.id == cid))
      let didConnect ← dictGet data "did_connect"
      let didLogin ← dictGet data "did_login"
      let auths ← asList (← dictGet data "login_attempts")
      let authentication ← auths.mapM extract_auth_entity
      -- client.last_activity = datetime.now()
      let clients' := st.clients.map (fun c =>
        if c.id = client.id then { c with last_activity := some nowLocal } else c)
      let st' := { st with clients := clients' }
      finishSession st' data classification honeypot .bait [] authentication
        (some didConnect) (some didLogin) (some didCompleteV) (some client.id) nowUtc
  else
    -- logger.warn('Unknown message type: ...'); return
    .ok (st, none)

/-- The structural filters of the candidate query (lines 160-166). -/
def candFilter (session : Session) (min_datetime max_datetime : Int) (s : Session) : Bool :=
  decide (s.protocol = session.protocol ∧ s.honeypot_id = session.honeypot_id ∧
    s.discriminator ≠ session.discriminator ∧ min_datetime ≤ s.timestamp ∧
    s.timestamp ≤ max_datetime ∧ s.id ≠ session.id)

/-- The credential-tuple comparison of lines 174-176. -/
def authTupleEq (session_auth honey_auth : Authentication) : Bool :=
  decide (session_auth.username = honey_auth.username ∧
    session_auth.password = honey_auth.password ∧
    session_auth.successful = honey_auth.successful)

/-- The nested credential scan of lines 172-179: does any authentication pair
of the base session and the candidate agree on (username, password,
success)? -/
def anyAuthMatch (session potential_match : Session) : Bool :=
  session.authentication.any (fun honey_auth =>
    potential_match.authentication.any (fun session_auth =>
      authTupleEq session_auth honey_auth))

/-- The candidate loop of lines 170-179, with its two assertions; the `match`
variable is overwritten by every candidate that has a qualifying pair. -/
def scanCandidates (session : Session) :
    Option Session → List Session → Except PyError (Option Session)
  | acc, [] => .ok acc
  | acc, potential_match :: rest =>
    if potential_match.id = session.id then .error .assertionError
    else if anyAuthMatch session potential_match then
      if potential_match.id = session.id then .error .assertionError
      else scanCandidates session (some potential_match) rest
    else scanCandidates session acc rest

/-- `get_matching_session` (lines 145-181).  The source declares
`timediff=5` as a default argument; both call sites use that default, and the
callers below pass `5` explicitly. -/
def get_matching_session (session : Session) (db_session : DB) (timediff : Int) :
    Except PyError (Option Session) :=
  let min_datetime := session.timestamp - timediff * 1000000
  let max_datetime := session.timestamp + timediff * 1000000
  scanCandidates session none
    (db_session.sessions.filter (candFilter session min_datetime max_datetime))

/-- `merge_bait_and_session` (lines 183-192): reclassify the bait session as
`bait_session`, replace its transcript and session content with the honeypot
session's, persist it and delete the honeypot session. -/
def merge_bait_and_session (honeypot_session bait_session : Session) (db_session : DB) :
    Except PyError DB := do
  let bait_classification ←
    queryOne (db_session.classifications.filter (fun c => c == "bait_session"))
  let bait' := { bait_session with
    classification := bait_classification,
    transcript := honeypot_session.transcript,
    session_data := honeypot_session.session_data }
  let sessions' := (db_session.sessions.filter
    (fun s => !decide (s.id = honeypot_session.id))).map
    (fun s => if s.id = bait_session.id then bait' else s)
  .ok { db_session with sessions := sessions' }

/-- `persist_session` (lines 70-135) as one step: phase 1 commits (or drops)
the record, then the correlation pass runs and a found match is merged.  The
returned store is the last committed state; a `some` error models an
exception escaping `persist_session` (changes after the last commit are
rolled back). -/
def persist_session (st : DB) (cfg : Bool) (nowLocal nowUtc : Int)
    (session_json : List Nat) (session_type : String) : DB × Option PyError :=
  match persistPhase1 st cfg nowLocal nowUtc session_json session_type with
  | .error e => (st, some e)
  | .ok (st1, none) => (st1, none)
  | .ok (st1, some session) =>
    if session_type = SESSION_HONEYPOT then
      match get_matching_session session st1 5 with
      | .error e => (st1, some e)
      | .ok none => (st1, none)
      | .ok (some matching_bait_session) =>
        match merge_bait_and_session session matching_bait_session st1 with
        | .ok st2 => (st2, none)
        | .error e => (st1, some e)
    else if session_type = SESSION_CLIENT then
      match get_matching_session session st1 5 with
      | .error e => (st1, some e)
      | .ok none => (st1, none)
      | .ok (some matching_honeypot_session) =>
        match merge_bait_and_session matching_honeypot_session session st1 with
        | .ok st2 => (st2, none)
        | .error e => (st1, some e)
    else (st1, none)

/-- One `(topic, payload)` event pulled off the bus, together with the
external inputs consumed while processing it: the configuration answer and
the wall-clock readings. -/
structure Event where
  topic : String
  payload : List Nat
  cfg : Bool
  nowLocal : Int
  nowUtc : Int
deriving Repr, DecidableEq

/-- The ingestion loop `_run` (lines 58-68) over a finite event sequence:
events are processed strictly one at a time; `_run` installs no exception
handler, so the first exception escaping `persist_session` kills the greenlet
and the remaining events are never processed. -/
def runLoop (st : DB) : List Event → DB × Option PyError
  | [] => (st, none)
  | e :: rest =>
    match persist_session st e.cfg e.nowLocal e.nowUtc e.payload e.topic with
    | (st', none) => runLoop st' rest
    | (st', some err) => (st', some err)

/-- The startup housekeeping of `SessionPersister.__init__` (lines 40-49):
delete every session still classified `pending`, and in clear mode delete all
sessions. -/
def startupCleanup (clear_sessions : Bool) (st : DB) : Except PyError DB := do
  let pending_classification ←
    queryOne (st.classifications.filter (fun c => c == "pending"))
  let kept := st.sessions.filter
    (fun s => !(s.classification == pending_classification))
  let st1 := { st with sessions := kept }
  if clear_sessions then .ok { st1 with sessions := [] } else .ok st1

/-- The matching conditions of spec §4.3 stated in the spec's own terms, for
comparison against `get_matching_session`: same protocol, same honeypot
reference, opposite discriminator, timestamp within the closed five-second
window, different identifier, and a shared (username, password, success)
authentication tuple. -/
def specMatchConds (S M : Session) : Prop :=
  M.protocol = S.protocol ∧ M.honeypot_id = S.honeypot_id ∧
  M.discriminator ≠ S.discriminator ∧
  S.timestamp - 5 * 1000000 ≤ M.timestamp ∧ M.timestamp ≤ S.timestamp + 5 * 1000000 ∧
  M.id ≠ S.id ∧
  ∃ a ∈ M.authentication, ∃ b ∈ S.authentication,
    a.username = b.username ∧ a.password = b.password ∧ a.successful = b.successful

instance (S M : Session) : Decidable (specMatchConds S M) := by
  unfold specMatchConds; infer_instance

theorem except_ok_bind {ε α β : Type} (a : α) (f : α → Except ε β) :
    ((Except.ok a : Except ε α) >>= f) = f a := rfl

theorem except_error_bind {ε α β : Type} (e : ε) (f : α → Except ε β) :
    ((Except.error e : Except ε α) >>= f) = Except.error e := rfl

theorem except_bind_ok {ε α β : Type} {x : Except ε α} {f : α → Except ε β} {b : β}
    (h : (x >>= f) = .ok b) : ∃ a, x = .ok a ∧ f a = .ok b := by
  cases x with
  | ok a => exact ⟨a, rfl, h⟩
  | error e => rw [except_error_bind] at h; exact absurd h (by simp)

theorem except_bind_congr {ε α β : Type} {x : Except ε α} {f g : α → Except ε β}
    (h : ∀ a, f a = g a) : (x >>= f) = (x >>= g) := by
  cases x with
  | ok a => rw [except_ok_bind, except_ok_bind]; exact h a
  | error e => rw [except_error_bind, except_error_bind]

theorem queryOne_mem {α : Type} {xs : List α} {x : α} (h : queryOne xs = .ok x) :
    x ∈ xs := by
  unfold queryOne at h
  split at h
  · simp_all
  · exact absurd h (by simp)
  · exact absurd h (by simp)

theorem queryOne_filter_eq {a x : String} {l : List String}
    (h : queryOne (l.filter (fun c => c == a)) = .ok x) : x = a := by
  have hm := queryOne_mem h
  have := (List.mem_filter.mp hm).2
  simpa using this

/-- The structural filter agrees with the corresponding spec conditions. -/
theorem candFilter_iff (S : Session) (mn mx : Int) (M : Session) :
    candFilter S mn mx M = true ↔
      (M.protocol = S.protocol ∧ M.honeypot_id = S.honeypot_id ∧
       M.discriminator ≠ S.discriminator ∧ mn ≤ M.timestamp ∧
       M.timestamp ≤ mx ∧ M.id ≠ S.id) := by
  simp [candFilter]

/-- The credential scan agrees with the spec's shared-tuple condition. -/
theorem anyAuthMatch_iff (S M : Session) :
    anyAuthMatch S M = true ↔
      ∃ a ∈ M.authentication, ∃ b ∈ S.authentication,
        a.username = b.username ∧ a.password = b.password ∧
        a.successful = b.successful := by
  simp only [anyAuthMatch, List.any_eq_true, authTupleEq, decide_eq_true_eq]
  constructor
  · rintro ⟨b, hb, a, ha, h⟩
    exact ⟨a, ha, b, hb, h⟩
  · rintro ⟨a, ha, b, hb, h⟩
    exact ⟨b, hb, a, ha, h⟩

/-- A candidate passes both the structural filter (at the default window) and
the credential scan exactly when it satisfies the spec's conditions. -/
theorem qualifies_iff_spec (S M : Session) :
    (candFilter S (S.timestamp - 5 * 1000000) (S.timestamp + 5 * 1000000) M = true ∧
      anyAuthMatch S M = true) ↔ specMatchConds S M := by
  rw [candFilter_iff, anyAuthMatch_iff]
  unfold specMatchConds
  tauto

/-- The candidate loop never raises as long as every scanned candidate has an
identifier different from the base session's. -/
theorem scanCandidates_ok (session : Session) :
    ∀ (l : List Session) (acc : Option Session),
      (∀ pm ∈ l, pm.id ≠ session.id) →
      scanCandidates session acc l =
        .ok (l.foldl (fun a pm => if anyAuthMatch session pm then some pm else a) acc)
  | [], _, _ => rfl
  | pm :: rest, acc, h => by
    have h1 : pm.id ≠ session.id := h pm (List.mem_cons_self pm rest)
    have h2 : ∀ q ∈ rest, q.id ≠ session.id := fun q hq => h q (List.mem_cons_of_mem pm hq)
    rw [List.foldl_cons]
    by_cases ham : anyAuthMatch session pm
    · simp only [scanCandidates, if_neg h1, if_pos ham]
      exact scanCandidates_ok session rest (some pm) h2
    · simp only [scanCandidates, if_neg h1, if_neg ham]
      exact scanCandidates_ok session rest acc h2

/-- `get_matching_session` equals a pure last-match fold over the filtered
candidate list; in particular it never raises. -/
theorem get_matching_session_eq (session : Session) (db : DB) (timediff : Int) :
    get_matching_session session db timediff =
      .ok ((db.sessions.filter (candFilter session
            (session.timestamp - timediff * 1000000)
            (session.timestamp + timediff * 1000000))).foldl
          (fun a pm => if anyAuthMatch session pm then some pm else a) none) := by
  apply scanCandidates_ok
  intro pm hpm
  have h := (List.mem_filter.mp hpm).2
  rw [candFilter_iff] at h
  exact h.2.2.2.2.2

theorem foldl_lastMatch_sound {α : Type} (p : α → Bool) :
    ∀ (l : List α) (acc : Option α) (M : α),
      l.foldl (fun a x => if p x then some x else a) acc = some M →
      (M ∈ l ∧ p M = true) ∨ acc = some M
  | [], _, _, h => Or.inr h
  | x :: l, acc, M, h => by
    rw [List.foldl_cons] at h
    rcases foldl_lastMatch_sound p l _ M h with h1 | h2
    · exact Or.inl ⟨List.mem_cons_of_mem x h1.1, h1.2⟩
    · by_cases hp : p x
      · rw [if_pos hp] at h2
        injection h2 with h2
        exact Or.inl ⟨h2 ▸ List.mem_cons_self x l, h2 ▸ hp⟩
      · rw [if_neg hp] at h2
        exact Or.inr h2

theorem foldl_lastMatch_none {α : Type} (p : α → Bool) :
    ∀ (l : List α) (acc : Option α), (∀ x ∈ l, p x = false) →
      l.foldl (fun a x => if p x then some x else a) acc = acc
  | [], _, _ => rfl
  | x :: l, acc, h => by
    rw [List.foldl_cons,
      if_neg (by rw [h x (List.mem_cons_self x l)]; exact Bool.false_ne_true)]
    exact foldl_lastMatch_none p l acc fun q hq => h q (List.mem_cons_of_mem x hq)

/-- Claim C9: the two assertions inside `get_matching_session` can never
fire: the candidate query already filters on `Session.id != session.id`, so
the scan always completes without raising, whatever the store contents. -/
theorem C9_assertions_unreachable (session : Session) (db : DB) (timediff : Int) :
    ∃ r, get_matching_session session db timediff = Except.ok r :=
  ⟨_, get_matching_session_eq session db timediff⟩

/-- Claim C1: `get_matching_session` returns a session `M` only if `M` is a
stored session with the same protocol, the same honeypot reference, the
opposite discriminator, a different identifier, a timestamp within the
closed five-second window around the base session's, and an authentication
attempt equal to one of the base session's by (username, password, success);
and it returns `none` whenever no stored session satisfies those
conditions. -/
theorem C1_matching_sound_and_complete (st : DB) (S : Session) :
    (∀ M, get_matching_session S st 5 = Except.ok (some M) →
      M ∈ st.sessions ∧ specMatchConds S M) ∧
    ((∀ M ∈ st.sessions, ¬ specMatchConds S M) →
      get_matching_session S st 5 = Except.ok none) := by
  constructor
  · intro M h
    rw [get_matching_session_eq] at h
    injection h with h
    rcases foldl_lastMatch_sound _ _ _ _ h with ⟨hmem, hq⟩ | habs
    · have hf := List.mem_filter.mp hmem
      exact ⟨hf.1, (qualifies_iff_spec S M).mp ⟨hf.2, hq⟩⟩
    · exact absurd habs (by simp)
  · intro hno
    rw [get_matching_session_eq]
    congr 1
    apply foldl_lastMatch_none
    intro x hx
    have hf := List.mem_filter.mp hx
    cases hq : anyAuthMatch S x with
    | false => rfl
    | true =>
      exact absurd ((qualifies_iff_spec S x).mp ⟨hf.2, hq⟩) (hno x hf.1)

/-- Claim C4: when several stored sessions satisfy all the matching
conditions, `get_matching_session` returns the last qualifying one in
enumeration order — here expressed by splitting the store at a qualifying
session `M` that no later session outmatches. -/
theorem C4_last_qualifying_wins (st : DB) (S M : Session)
    (pre post : List Session)
    (hsplit : st.sessions = pre ++ M :: post)
    (hM : specMatchConds S M)
    (hpost : ∀ N ∈ post, ¬ specMatchConds S N) :
    get_matching_session S st 5 = Except.ok (some M) := by
  rw [get_matching_session_eq, hsplit]
  have hMq := (qualifies_iff_spec S M).mpr hM
  rw [List.filter_append, List.filter_cons, if_pos hMq.1, List.foldl_append,
    List.foldl_cons, if_pos hMq.2]
  congr 1
  apply foldl_lastMatch_none
  intro x hx
  have hf := List.mem_filter.mp hx
  cases hq : anyAuthMatch S x with
  | false => rfl
  | true =>
    exact absurd ((qualifies_iff_spec S x).mp ⟨hf.2, hq⟩) (hpost x hf.1)

/-- Rewrite a stored session's classification label, leaving every other
column unchanged. -/
def relabel (f : String → String) (s : Session) : Session :=
  { s with classification := f s.classification }

theorem candFilter_relabel (S : Session) (mn mx : Int) (f : String → String)
    (s : Session) : candFilter S mn mx (relabel f s) = candFilter S mn mx s := rfl

theorem anyAuthMatch_relabel (S : Session) (f : String → String) (s : Session) :
    anyAuthMatch S (relabel f s) = anyAuthMatch S s := rfl

theorem foldl_lastMatch_map {α : Type} (p : α → Bool) (g : α → α)
    (hg : ∀ x, p (g x) = p x) :
    ∀ (l : List α) (acc : Option α),
      (l.map g).foldl (fun a x => if p x then some x else a) (Option.map g acc) =
        Option.map g (l.foldl (fun a x => if p x then some x else a) acc)
  | [], _ => rfl
  | x :: l, acc => by
    rw [List.map_cons, List.foldl_cons, List.foldl_cons]
    by_cases hp : p x
    · rw [if_pos (by rw [hg]; exact hp), if_pos hp]
      have h := foldl_lastMatch_map p g hg l (some x)
      simpa using h
    · rw [if_neg (by rw [hg]; exact hp), if_neg hp]
      exact foldl_lastMatch_map p g hg l acc

set_option maxRecDepth 200000

/-- A store holding one honeypot, one bait client and the two classification
rows, as the concrete scenarios assume. -/
def scDB : DB := ⟨[], ["h1"], [⟨"c1", none⟩], ["pending", "bait_session"]⟩

/-- A honeypot-observed record: id `hs1`, 10:00:00, transcript `hello`, one
successful `u`/`p` login. -/
def scHs1 : List Nat := asciiBytes "\x7b\"id\": \"hs1\", \"timestamp\": \"2014-08-01T10:00:00.000000\", \"protocol\": \"ssh\", \"destination_ip\": \"1.2.3.4\", \"destination_port\": 22, \"source_ip\": \"5.6.7.8\", \"source_port\": 1234, \"honeypot_id\": \"h1\", \"transcript\": [\x7b\"timestamp\": \"2014-08-01T10:00:00.000000\", \"direction\": \"in\", \"data\": \"hello\"\x7d], \"login_attempts\": [\x7b\"id\": \"a1\", \"username\": \"u\", \"password\": \"p\", \"successful\": true, \"timestamp\": \"2014-08-01T10:00:00.000000\"\x7d]\x7d"

/-- A bait-observed record: id `bs1`, 10:00:03, the same `u`/`p` login. -/
def scBs1 : List Nat := asciiBytes "\x7b\"id\": \"bs1\", \"timestamp\": \"2014-08-01T10:00:03.000000\", \"protocol\": \"ssh\", \"destination_ip\": \"1.2.3.4\", \"destination_port\": 22, \"source_ip\": \"5.6.7.8\", \"source_port\": 1235, \"honeypot_id\": \"h1\", \"client_id\": \"c1\", \"did_connect\": true, \"did_login\": true, \"did_complete\": true, \"login_attempts\": [\x7b\"id\": \"a2\", \"username\": \"u\", \"password\": \"p\", \"successful\": true, \"timestamp\": \"2014-08-01T10:00:03.000000\"\x7d]\x7d"

/-- A second honeypot-observed record: id `hs2`, 10:00:04, transcript
`second`, the same `u`/`p` login. -/
def scHs2 : List Nat := asciiBytes "\x7b\"id\": \"hs2\", \"timestamp\": \"2014-08-01T10:00:04.000000\", \"protocol\": \"ssh\", \"destination_ip\": \"1.2.3.4\", \"destination_port\": 22, \"source_ip\": \"5.6.7.8\", \"source_port\": 1236, \"honeypot_id\": \"h1\", \"transcript\": [\x7b\"timestamp\": \"2014-08-01T10:00:04.000000\", \"direction\": \"in\", \"data\": \"second\"\x7d], \"login_attempts\": [\x7b\"id\": \"a3\", \"username\": \"u\", \"password\": \"p\", \"successful\": true, \"timestamp\": \"2014-08-01T10:00:04.000000\"\x7d]\x7d"

/-- The bus event carrying `scHs1`. -/
def scHsEvent : Event := ⟨SESSION_HONEYPOT, scHs1, false, 0, 0⟩

/-- The bus event carrying `scBs1`. -/
def scBsEvent : Event := ⟨SESSION_CLIENT, scBs1, false, 0, 0⟩

/-- The bus event carrying `scHs2`. -/
def scHs2Event : Event := ⟨SESSION_HONEYPOT, scHs2, false, 0, 0⟩

/-- Claim C10: the candidate query never restricts on classification — the
matcher's outcome is invariant under relabelling every stored session's
classification — so a bait session already reclassified `bait_session` by an
earlier merge stays eligible: ingesting `hs1`, `bs1` (first merge) and then
`hs2` re-matches the merged bait session and overwrites its transcript with
`hs2`'s. -/
theorem C10_matcher_ignores_classification :
    (∀ (db : DB) (S : Session) (f : String → String) (t : Int),
      get_matching_session S { db with sessions := db.sessions.map (relabel f) } t =
        (get_matching_session S db t).map (Option.map (relabel f))) ∧
    (runLoop scDB [scHsEvent, scBsEvent, scHs2Event]).1.sessions.map
        (fun s => (s.id, s.classification, s.transcript.map Transcript.data)) =
      [(JVal.str "bs1", "bait_session", [JVal.str "second"])] := by
  constructor
  · intro db S f t
    rw [get_matching_session_eq, get_matching_session_eq]
    have hfm : (db.sessions.map (relabel f)).filter
        (candFilter S (S.timestamp - t * 1000000) (S.timestamp + t * 1000000)) =
        (db.sessions.filter (candFilter S (S.timestamp - t * 1000000)
          (S.timestamp + t * 1000000))).map (relabel f) := by
      rw [List.filter_map]
      congr 1
    show Except.ok _ = _
    rw [hfm]
    have h := foldl_lastMatch_map (anyAuthMatch S) (relabel f)
      (anyAuthMatch_relabel S f) (db.sessions.filter (candFilter S
        (S.timestamp - t * 1000000) (S.timestamp + t * 1000000))) none
    rw [show (Option.map (relabel f) (none : Option Session)) = none from rfl] at h
    rw [h]
    rfl
  · rfl

/-- A successful `finishSession` appends exactly one new session row carrying
the classification it was given. -/
theorem finishSession_ok {st : DB} {data : JVal} {cl hp : String}
    {disc : Discriminator} {tr : List Transcript} {au : List Authentication}
    {dc dl dcp : Option JVal} {cid : Option String} {nU : Int} {st1 : DB}
    {os : Option Session}
    (h : finishSession st data cl hp disc tr au dc dl dcp cid nU = .ok (st1, os)) :
    ∃ newS : Session, st1 = { st with sessions := st.sessions ++ [newS] } ∧
      os = some newS ∧ newS.classification = cl := by
  unfold finishSession at h
  obtain ⟨idv, h1, h⟩ := except_bind_ok h
  obtain ⟨tsv, h2, h⟩ := except_bind_ok h
  obtain ⟨ts, h3, h⟩ := except_bind_ok h
  obtain ⟨protocol, h4, h⟩ := except_bind_ok h
  obtain ⟨dip, h5, h⟩ := except_bind_ok h
  obtain ⟨dport, h6, h⟩ := except_bind_ok h
  obtain ⟨sip, h7, h⟩ := except_bind_ok h
  obtain ⟨sport, h8, h⟩ := except_bind_ok h
  simp only [Except.ok.injEq, Prod.mk.injEq] at h
  exact ⟨_, h.1.symm, h.2.symm, rfl⟩

/-- A successful first phase either leaves the session table unchanged and
reports no new session (gate drop or unknown topic), or appends exactly one
new session classified `pending` and reports it. -/
theorem persistPhase1_ok {st : DB} {cfg : Bool} {nL nU : Int} {p : List Nat}
    {tp : String} {st1 : DB} {os : Option Session}
    (h : persistPhase1 st cfg nL nU p tp = .ok (st1, os)) :
    (st1.sessions = st.sessions ∧ os = none) ∨
    (∃ newS : Session, st1.sessions = st.sessions ++ [newS] ∧
      newS.classification = "pending" ∧ os = some newS) := by
  unfold persistPhase1 at h
  obtain ⟨data, hdec, h⟩ := except_bind_ok h
  obtain ⟨cl, hcl, h⟩ := except_bind_ok h
  have hclp : cl = "pending" := queryOne_filter_eq hcl
  obtain ⟨hid, hhid, h⟩ := except_bind_ok h
  split at h
  · exact absurd h (by simp)
  obtain ⟨hp, hhp, h⟩ := except_bind_ok h
  split at h
  · -- honeypot branch
    obtain ⟨trv, ht1, h⟩ := except_bind_ok h
    obtain ⟨entries, ht2, h⟩ := except_bind_ok h
    obtain ⟨tr, ht3, h⟩ := except_bind_ok h
    obtain ⟨lav, ht4, h⟩ := except_bind_ok h
    obtain ⟨auths, ht5, h⟩ := except_bind_ok h
    obtain ⟨au, ht6, h⟩ := except_bind_ok h
    obtain ⟨newS, hst, hos, hcls⟩ := finishSession_ok h
    exact Or.inr ⟨newS, by rw [hst], by rw [hcls, hclp], hos⟩
  split at h
  · -- client branch
    obtain ⟨didC, hdc, h⟩ := except_bind_ok h
    split at h
    · -- gate drop
      simp only [Except.ok.injEq, Prod.mk.injEq] at h
      exact Or.inl ⟨by rw [← h.1], h.2.symm⟩
    · obtain ⟨cid, hcid, h⟩ := except_bind_ok h
      obtain ⟨client, hclient, h⟩ := except_bind_ok h
      obtain ⟨dcon, hdcon, h⟩ := except_bind_ok h
      obtain ⟨dlog, hdlog, h⟩ := except_bind_ok h
      obtain ⟨lav, hlav, h⟩ := except_bind_ok h
      obtain ⟨auths, hauths, h⟩ := except_bind_ok h
      obtain ⟨au, hau, h⟩ := except_bind_ok h
      obtain ⟨newS, hst, hos, hcls⟩ := finishSession_ok h
      exact Or.inr ⟨newS, by rw [hst], by rw [hcls, hclp], hos⟩
  · -- unknown topic
    simp only [Except.ok.injEq, Prod.mk.injEq] at h
    exact Or.inl ⟨by rw [← h.1], h.2.symm⟩

/-- The surviving copy a merge produces for the bait session: reclassified
`bait_session`, carrying the honeypot session's transcript and content. -/
def mergedBait (hs bs : Session) : Session :=
  { bs with
    classification := "bait_session",
    transcript := hs.transcript,
    session_data := hs.session_data }

/-- A successful merge rewrites the session table to: every row except the
honeypot session's, with the bait session's row replaced by its reclassified,
transcript-carrying copy. -/
theorem merge_ok_sessions {hs bs : Session} {db db' : DB}
    (h : merge_bait_and_session hs bs db = .ok db') :
    db'.sessions = (db.sessions.filter (fun s => !decide (s.id = hs.id))).map
      (fun s => if s.id = bs.id then mergedBait hs bs else s) := by
  unfold merge_bait_and_session at h
  obtain ⟨bc, hbc, h⟩ := except_bind_ok h
  have hbcv : bc = "bait_session" := queryOne_filter_eq hbc
  subst hbcv
  simp only [Except.ok.injEq] at h
  rw [← h]
  rfl

/-- Claim C3 (amended): `persist_session` never assigns any classification
other than `pending` (on insert) and `bait_session` (on merge); in
particular a session whose correlation pass finds no match keeps `pending` —
there is no third, unresolved label.  Every session in the store after a
step is either untouched, or classified `pending`, or classified
`bait_session`. -/
theorem C3_amended_only_pending_or_bait (st : DB) (cfg : Bool) (nL nU : Int)
    (payload : List Nat) (tp : String) (s : Session)
    (hs : s ∈ (persist_session st cfg nL nU payload tp).1.sessions) :
    s ∈ st.sessions ∨ s.classification = "pending" ∨
      s.classification = "bait_session" := by
  unfold persist_session at hs
  cases hp1 : persistPhase1 st cfg nL nU payload tp with
  | error e =>
    rw [hp1] at hs
    exact Or.inl hs
  | ok pr =>
    obtain ⟨st1, os⟩ := pr
    rw [hp1] at hs
    have hst1 : ∀ x : Session, x ∈ st1.sessions →
        x ∈ st.sessions ∨ x.classification = "pending" ∨
          x.classification = "bait_session" := by
      intro x hx
      rcases persistPhase1_ok hp1 with ⟨hse, _⟩ | ⟨newS, hse, hcls, _⟩
      · exact Or.inl (hse ▸ hx)
      · rw [hse] at hx
        rcases List.mem_append.mp hx with hxl | hxr
        · exact Or.inl hxl
        · have hxn : x = newS := by simpa using hxr
          exact Or.inr (Or.inl (hxn ▸ hcls))
    have hmc : ∀ (A B : Session) (st2 : DB),
        merge_bait_and_session A B st1 = .ok st2 → s ∈ st2.sessions →
        s ∈ st.sessions ∨ s.classification = "pending" ∨
          s.classification = "bait_session" := by
      intro A B st2 hmg hx
      rw [merge_ok_sessions hmg] at hx
      obtain ⟨s0, hs0, hseq⟩ := List.mem_map.mp hx
      have hs0m : s0 ∈ st1.sessions := (List.mem_filter.mp hs0).1
      by_cases hid : s0.id = B.id
      · rw [if_pos hid] at hseq
        exact Or.inr (Or.inr (hseq ▸ rfl))
      · rw [if_neg hid] at hseq
        exact hseq ▸ hst1 s0 hs0m
    cases os with
    | none => exact hst1 s hs
    | some session =>
      simp only [] at hs
      by_cases ht1 : tp = SESSION_HONEYPOT
      · rw [if_pos ht1] at hs
        cases hm : get_matching_session session st1 5 with
        | error e => rw [hm] at hs; exact hst1 s hs
        | ok om =>
          cases om with
          | none => rw [hm] at hs; exact hst1 s hs
          | some M =>
            rw [hm] at hs
            simp only [] at hs
            cases hmg : merge_bait_and_session session M st1 with
            | ok st2 => rw [hmg] at hs; exact hmc session M st2 hmg hs
            | error e => rw [hmg] at hs; exact hst1 s hs
      · rw [if_neg ht1] at hs
        by_cases ht2 : tp = SESSION_CLIENT
        · rw [if_pos ht2] at hs
          cases hm : get_matching_session session st1 5 with
          | error e => rw [hm] at hs; exact hst1 s hs
          | ok om =>
            cases om with
            | none => rw [hm] at hs; exact hst1 s hs
            | some M =>
              rw [hm] at hs
              simp only [] at hs
              cases hmg : merge_bait_and_session M session st1 with
              | ok st2 => rw [hmg] at hs; exact hmc M session st2 hmg hs
              | error e => rw [hmg] at hs; exact hst1 s hs
        · rw [if_neg ht2] at hs
          exact hst1 s hs

/-- Claim C3, counterexample: a honeypot record persisted into a store with
no candidate completes its correlation pass without an error and without a
match, yet the persisted session still carries classification `pending` —
it is never given a distinct unresolved label. -/
theorem C3_counterexample :
    (persist_session scDB false 0 0 scHs1 SESSION_HONEYPOT).2 = none ∧
    (persist_session scDB false 0 0 scHs1 SESSION_HONEYPOT).1.sessions.map
      (fun s => (s.id, s.classification)) = [(JVal.str "hs1", "pending")] :=
  ⟨rfl, rfl⟩

/-- The honeypot-side session of the concrete merge witness. -/
def c5H : Session :=
  ⟨.str "H", .honeypot, "pending", .str "ssh", 0, 0, .str "d", .num 22,
    .str "s", .num 9, "h1", [⟨.str "a", .str "u", .str "p", .bool true, 0⟩],
    [⟨0, .str "in", .str "hello"⟩], .str "content", none, none, none, none⟩

/-- The bait-side session of the concrete merge witness. -/
def c5B : Session :=
  ⟨.str "B", .bait, "pending", .str "ssh", 1000000, 0, .str "d", .num 22,
    .str "s", .num 9, "h1", [⟨.str "b", .str "u", .str "p", .bool true, 0⟩],
    [], .null, some (.bool true), some (.bool true), some (.bool true),
    some "c1"⟩

/-- A store holding both sides of the concrete merge witness. -/
def c5DB : DB := ⟨[c5B, c5H], ["h1"], [⟨"c1", none⟩], ["pending", "bait_session"]⟩

/-- The store after merging `c5H` into `c5B`. -/
def c5After : DB :=
  match merge_bait_and_session c5H c5B c5DB with
  | .ok d => d
  | .error _ => c5DB

/-- Claim C5: a successful merge leaves no session with the honeypot
session's identifier and keeps the bait session under its own identifier,
reclassified `bait_session` and carrying the honeypot session's transcript
and content (replaced, not appended); and the engine merges with the
honeypot side as the deleted copy in both ingestion orders — the two
end-to-end runs (honeypot first, bait first) both end with only `bs1`,
reclassified and carrying `hs1`'s transcript. -/
theorem C5_merge_replaces_and_deletes (st st' : DB) (H B : Session)
    (hBmem : B ∈ st.sessions) (hne : B.id ≠ H.id)
    (h : merge_bait_and_session H B st = .ok st') :
    ((∀ s ∈ st'.sessions, s.id ≠ H.id) ∧
     (∃ s ∈ st'.sessions, s.id = B.id ∧ s.classification = "bait_session" ∧
       s.transcript = H.transcript ∧ s.session_data = H.session_data)) ∧
    (runLoop scDB [scHsEvent, scBsEvent]).1.sessions.map
        (fun s => (s.id, s.classification, s.transcript.map Transcript.data)) =
      [(JVal.str "bs1", "bait_session", [JVal.str "hello"])] ∧
    (runLoop scDB [scBsEvent, scHsEvent]).1.sessions.map
        (fun s => (s.id, s.classification, s.transcript.map Transcript.data)) =
      [(JVal.str "bs1", "bait_session", [JVal.str "hello"])] := by
  refine ⟨⟨?_, ?_⟩, by rfl, by rfl⟩
  · intro s hs
    rw [merge_ok_sessions h] at hs
    obtain ⟨s0, hs0, hseq⟩ := List.mem_map.mp hs
    have hid0 : ¬(s0.id = H.id) := by simpa using (List.mem_filter.mp hs0).2
    by_cases hid : s0.id = B.id
    · rw [if_pos hid] at hseq
      rw [← hseq]
      exact hne
    · rw [if_neg hid] at hseq
      rw [← hseq]
      exact hid0
  · rw [merge_ok_sessions h]
    refine ⟨mergedBait H B, List.mem_map.mpr ⟨B, ?_, by rw [if_pos rfl]⟩,
      rfl, rfl, rfl, rfl⟩
    exact List.mem_filter.mpr ⟨hBmem, by simpa using hne⟩

/-- Claim C5, witness: the merge postconditions applied to the concrete pair
`c5H`/`c5B`. -/
theorem C5_merge_replaces_and_deletes_witness :
    ((∀ s ∈ c5After.sessions, s.id ≠ c5H.id) ∧
     (∃ s ∈ c5After.sessions, s.id = c5B.id ∧ s.classification = "bait_session" ∧
       s.transcript = c5H.transcript ∧ s.session_data = c5H.session_data)) ∧
    (runLoop scDB [scHsEvent, scBsEvent]).1.sessions.map
        (fun s => (s.id, s.classification, s.transcript.map Transcript.data)) =
      [(JVal.str "bs1", "bait_session", [JVal.str "hello"])] ∧
    (runLoop scDB [scBsEvent, scHsEvent]).1.sessions.map
        (fun s => (s.id, s.classification, s.transcript.map Transcript.data)) =
      [(JVal.str "bs1", "bait_session", [JVal.str "hello"])] :=
  C5_merge_replaces_and_deletes c5DB c5After c5H c5B (by decide) (by decide) rfl

/-- The base session of the no-match witness: a honeypot session whose only
stored counterpart uses a different password. -/
def w1S : Session :=
  ⟨.str "S", .honeypot, "pending", .str "ssh", 0, 0, .str "d", .num 22,
    .str "s", .num 9, "h1", [⟨.str "a", .str "u", .str "p", .bool true, 0⟩],
    [], .null, none, none, none, none⟩

/-- A bait session agreeing on everything but the password. -/
def w1N : Session :=
  ⟨.str "N", .bait, "pending", .str "ssh", 0, 0, .str "d", .num 22,
    .str "s", .num 9, "h1", [⟨.str "b", .str "u", .str "q", .bool true, 0⟩],
    [], .null, some (.bool true), some (.bool true), some (.bool true),
    some "c1"⟩

/-- A store for the no-match witness. -/
def w1DB : DB := ⟨[w1N], ["h1"], [⟨"c1", none⟩], ["pending", "bait_session"]⟩

/-- Claim C1, witness: with the only stored candidate differing in password,
the matcher returns `none`. -/
theorem C1_matching_sound_and_complete_witness :
    get_matching_session w1S w1DB 5 = Except.ok none :=
  (C1_matching_sound_and_complete w1DB w1S).2 (by decide)

/-- First qualifying bait candidate of the last-wins witness. -/
def w4M1 : Session :=
  ⟨.str "M1", .bait, "pending", .str "ssh", 1000000, 0, .str "d", .num 22,
    .str "s", .num 9, "h1", [⟨.str "b", .str "u", .str "p", .bool true, 0⟩],
    [], .null, some (.bool true), some (.bool true), some (.bool true),
    some "c1"⟩

/-- Second qualifying bait candidate of the last-wins witness. -/
def w4M2 : Session :=
  ⟨.str "M2", .bait, "pending", .str "ssh", 2000000, 0, .str "d", .num 22,
    .str "s", .num 9, "h1", [⟨.str "b2", .str "u", .str "p", .bool true, 0⟩],
    [], .null, some (.bool true), some (.bool true), some (.bool true),
    some "c1"⟩

/-- The base honeypot session of the last-wins witness. -/
def w4S : Session :=
  ⟨.str "S4", .honeypot, "pending", .str "ssh", 0, 0, .str "d", .num 22,
    .str "s", .num 9, "h1", [⟨.str "a", .str "u", .str "p", .bool true, 0⟩],
    [], .null, none, none, none, none⟩

/-- A store with two qualifying candidates, in enumeration order
`[w4M1, w4M2]`. -/
def w4DB : DB := ⟨[w4M1, w4M2], ["h1"], [⟨"c1", none⟩], ["pending", "bait_session"]⟩

/-- Claim C4, witness: with two qualifying candidates the matcher returns
the second (last) one, not the first. -/
theorem C4_last_qualifying_wins_witness :
    get_matching_session w4S w4DB 5 = Except.ok (some w4M2) :=
  C4_last_qualifying_wins w4DB w4S w4M2 [w4M1] [] rfl (by decide) (by decide)

/-- The session persisted by the C3 concrete run. -/
def c3S : Session :=
  ((persist_session scDB false 0 0 scHs1 SESSION_HONEYPOT).1.sessions).headD c5H

/-- Claim C3, witness: the amended theorem applied to the concrete no-match
run; its persisted session indeed carries one of the two labels the code can
write. -/
theorem C3_amended_only_pending_or_bait_witness :
    c3S ∈ scDB.sessions ∨ c3S.classification = "pending" ∨
      c3S.classification = "bait_session" :=
  C3_amended_only_pending_or_bait scDB false 0 0 scHs1 SESSION_HONEYPOT c3S
    (by decide)

/-- Claim C2, counterexample: the payload bytes `["\xff` fail UTF-8
decoding, their Latin-1 reading is not valid JSON, and the resulting
`ValueError` escapes `persist_session`: the event is not logged-and-dropped
and the loop halts — the second event is never processed and the store is
unchanged. -/
theorem C2_counterexample :
    utf8Decode? [0x5B, 0x22, 0xFF, 0x22] = none ∧
    jsonParse (latin1Decode [0x5B, 0x22, 0xFF, 0x22]) =
      Except.error PyError.valueError ∧
    runLoop scDB [⟨SESSION_HONEYPOT, [0x5B, 0x22, 0xFF, 0x22], false, 0, 0⟩,
        scHsEvent] =
      (scDB, some PyError.valueError) :=
  ⟨rfl, rfl, rfl⟩

/-- Claim C2 (amended): when UTF-8 decoding fails, the engine retries the
parse on the Latin-1 decoding of the payload; but when that retried parse
also fails, the error propagates uncaught out of `persist_session` — the
event is not logged-and-dropped, and the ingestion loop halts without
processing any later event. -/
theorem C2_decode_retry_then_halt :
    (∀ bs : List Nat, utf8Decode? bs = none →
      decodePayload bs = jsonParse (latin1Decode bs)) ∧
    (∀ (st : DB) (e : Event) (rest : List Event) (err : PyError),
      decodePayload e.payload = .error err →
      runLoop st (e :: rest) = (st, some err)) := by
  constructor
  · intro bs h
    unfold decodePayload json_loads
    rw [h]
  · intro st e rest err h
    have hp : persist_session st e.cfg e.nowLocal e.nowUtc e.payload e.topic =
        (st, some err) := by
      unfold persist_session persistPhase1
      rw [h, except_error_bind]
    unfold runLoop
    rw [hp]

/-- Claim C2, witness: the amended behavior at the concrete payload
`["\xff`. -/
theorem C2_decode_retry_then_halt_witness :
    decodePayload [0x5B, 0x22, 0xFF, 0x22] =
      jsonParse (latin1Decode [0x5B, 0x22, 0xFF, 0x22]) ∧
    runLoop scDB [⟨SESSION_HONEYPOT, [0x5B, 0x22, 0xFF, 0x22], false, 0, 0⟩] =
      (scDB, some PyError.valueError) :=
  ⟨C2_decode_retry_then_halt.1 _ rfl,
   C2_decode_retry_then_halt.2 scDB _ [] PyError.valueError rfl⟩

/-- Claim C6: a bait record whose `did_complete` is falsy is dropped
silently when `ignore_failed_bait_session` is enabled — the store is
returned unchanged with no error, so no session is created and no
correlation is attempted; and honeypot records are never subject to the
gate: over every store, payload and clock reading, a honeypot event's
outcome is independent of the flag, and a honeypot record whose first
phase completes without an exception is always persisted (one session row
appended — the silent-drop outcome is impossible on the honeypot path). -/
theorem C6_failed_bait_gate (st : DB) (nL nU : Int) (payload : List Nat)
    (data hidV didC : JVal) (cl hp : String)
    (hdec : decodePayload payload = .ok data)
    (hcl : queryOne (st.classifications.filter (fun c => c == "pending")) = .ok cl)
    (hid : dictGet data "honeypot_id" = .ok hidV)
    (hnn : ¬(hidV = JVal.null))
    (hhp : queryOne (st.honeypots.filter (fun h => JVal.str h == hidV)) = .ok hp)
    (hdc : dictGet data "did_complete" = .ok didC)
    (hfalsy : pyFalsy didC = true) :
    persist_session st true nL nU payload SESSION_CLIENT = (st, none) ∧
    (∀ (st' : DB) (cfg₁ cfg₂ : Bool) (nL' nU' : Int) (p' : List Nat),
      persist_session st' cfg₁ nL' nU' p' SESSION_HONEYPOT =
        persist_session st' cfg₂ nL' nU' p' SESSION_HONEYPOT) ∧
    (∀ (st' : DB) (cfg : Bool) (nL' nU' : Int) (p' : List Nat)
        (st1 : DB) (os : Option Session),
      persistPhase1 st' cfg nL' nU' p' SESSION_HONEYPOT = .ok (st1, os) →
      ∃ newS : Session, os = some newS ∧
        st1.sessions = st'.sessions ++ [newS]) := by
  refine ⟨?_, ?_, ?_⟩
  · have hph : persistPhase1 st true nL nU payload SESSION_CLIENT =
        .ok (st, none) := by
      simp [persistPhase1, hdec, hcl, hid, hnn, hhp, hdc, hfalsy,
        except_ok_bind, SESSION_CLIENT, SESSION_HONEYPOT]
    unfold persist_session
    rw [hph]
  · intro st' cfg₁ cfg₂ nL' nU' p'
    have hph : persistPhase1 st' cfg₁ nL' nU' p' SESSION_HONEYPOT =
        persistPhase1 st' cfg₂ nL' nU' p' SESSION_HONEYPOT := by
      unfold persistPhase1
      apply except_bind_congr
      intro data'
      apply except_bind_congr
      intro cl'
      apply except_bind_congr
      intro hidv'
      by_cases hn : hidv' = JVal.null
      · rw [if_pos hn, if_pos hn]
      · rw [if_neg hn, if_neg hn]
        apply except_bind_congr
        intro hp'
        rw [if_pos rfl, if_pos rfl]
    unfold persist_session
    rw [hph]
  · intro st' cfg nL' nU' p' st1 os h
    unfold persistPhase1 at h
    obtain ⟨data', hdec', h⟩ := except_bind_ok h
    obtain ⟨cl', hcl', h⟩ := except_bind_ok h
    obtain ⟨hidv', hhid', h⟩ := except_bind_ok h
    split at h
    · exact absurd h (by simp)
    obtain ⟨hp', hhp', h⟩ := except_bind_ok h
    rw [if_pos rfl] at h
    obtain ⟨trv, ht1, h⟩ := except_bind_ok h
    obtain ⟨entries, ht2, h⟩ := except_bind_ok h
    obtain ⟨tr, ht3, h⟩ := except_bind_ok h
    obtain ⟨lav, ht4, h⟩ := except_bind_ok h
    obtain ⟨auths, ht5, h⟩ := except_bind_ok h
    obtain ⟨au, ht6, h⟩ := except_bind_ok h
    obtain ⟨newS, hst, hos, _⟩ := finishSession_ok h
    exact ⟨newS, hos, by rw [hst]⟩

/-- A bait record carrying only the fields read before the gate. -/
def w6Payload : List Nat :=
  asciiBytes "\x7b\"honeypot_id\": \"h1\", \"did_complete\": false\x7d"

/-- The committed store and reported session of the concrete honeypot
first-phase run used by the C6 witness. -/
def w6HsAfter : DB × Option Session :=
  match persistPhase1 scDB false 0 0 scHs1 SESSION_HONEYPOT with
  | .ok pr => pr
  | .error _ => (scDB, none)

/-- Claim C6, witness: the gate applied to a concrete incomplete bait
record with the flag enabled leaves the store untouched, and the concrete
honeypot record `scHs1` — which carries no `did_complete` at all — is
persisted by its first phase. -/
theorem C6_failed_bait_gate_witness :
    persist_session scDB true 0 0 w6Payload SESSION_CLIENT = (scDB, none) ∧
    (∃ newS : Session, w6HsAfter.2 = some newS ∧
      w6HsAfter.1.sessions = scDB.sessions ++ [newS]) :=
  ⟨(C6_failed_bait_gate scDB 0 0 w6Payload
      (JVal.obj [("honeypot_id", .str "h1"), ("did_complete", .bool false)])
      (.str "h1") (.bool false) "pending" "h1"
      rfl rfl rfl (by decide) rfl rfl rfl).1,
   (C6_failed_bait_gate scDB 0 0 w6Payload
      (JVal.obj [("honeypot_id", .str "h1"), ("did_complete", .bool false)])
      (.str "h1") (.bool false) "pending" "h1"
      rfl rfl rfl (by decide) rfl rfl rfl).2.2 scDB false 0 0 scHs1
     w6HsAfter.1 w6HsAfter.2 rfl⟩

/-- Claim C7: a record whose honeypot reference is missing raises
`KeyError`, one whose reference is JSON `null` fails the assertion, and one
whose reference resolves to no stored honeypot propagates the lookup
failure — in every case the error escapes and the store is returned
unchanged, so the record is never persisted. -/
theorem C7_unresolvable_honeypot_rejected (st : DB) (cfg : Bool) (nL nU : Int)
    (payload : List Nat) (tp : String) (data : JVal) (cl : String)
    (hdec : decodePayload payload = .ok data)
    (hcl : queryOne (st.classifications.filter (fun c => c == "pending")) = .ok cl) :
    (dictGet data "honeypot_id" = .error .keyError →
      persist_session st cfg nL nU payload tp = (st, some PyError.keyError)) ∧
    (dictGet data "honeypot_id" = .ok JVal.null →
      persist_session st cfg nL nU payload tp = (st, some PyError.assertionError)) ∧
    (∀ hidV, dictGet data "honeypot_id" = .ok hidV → ¬(hidV = JVal.null) →
      queryOne (st.honeypots.filter (fun h => JVal.str h == hidV)) =
        .error .noResultFound →
      persist_session st cfg nL nU payload tp = (st, some PyError.noResultFound)) := by
  refine ⟨?_, ?_, ?_⟩
  · intro hkey
    have hph : persistPhase1 st cfg nL nU payload tp = .error .keyError := by
      simp [persistPhase1, hdec, hcl, hkey, except_ok_bind, except_error_bind]
    unfold persist_session
    rw [hph]
  · intro hnull
    have hph : persistPhase1 st cfg nL nU payload tp = .error .assertionError := by
      simp [persistPhase1, hdec, hcl, hnull, except_ok_bind]
    unfold persist_session
    rw [hph]
  · intro hidV hid hnn hlook
    have hph : persistPhase1 st cfg nL nU payload tp = .error .noResultFound := by
      simp [persistPhase1, hdec, hcl, hid, hnn, hlook, except_ok_bind,
        except_error_bind]
    unfold persist_session
    rw [hph]

/-- A record whose honeypot reference is JSON `null`. -/
def w7NullPayload : List Nat := asciiBytes "\x7b\"honeypot_id\": null\x7d"

/-- A record whose honeypot reference resolves to no stored honeypot. -/
def w7MissPayload : List Nat := asciiBytes "\x7b\"honeypot_id\": \"zz\"\x7d"

/-- Claim C7, witness: the three rejection modes at concrete records — a
missing reference, a null reference, an unresolvable reference. -/
theorem C7_unresolvable_honeypot_rejected_witness :
    persist_session scDB false 0 0 (asciiBytes "\x7b\x7d") "t" =
      (scDB, some PyError.keyError) ∧
    persist_session scDB false 0 0 w7NullPayload "t" =
      (scDB, some PyError.assertionError) ∧
    persist_session scDB false 0 0 w7MissPayload "t" =
      (scDB, some PyError.noResultFound) :=
  ⟨(C7_unresolvable_honeypot_rejected scDB false 0 0 (asciiBytes "\x7b\x7d") "t"
      (JVal.obj []) "pending" rfl rfl).1 rfl,
   (C7_unresolvable_honeypot_rejected scDB false 0 0 w7NullPayload "t"
      (JVal.obj [("honeypot_id", JVal.null)]) "pending" rfl rfl).2.1 rfl,
   (C7_unresolvable_honeypot_rejected scDB false 0 0 w7MissPayload "t"
      (JVal.obj [("honeypot_id", .str "zz")]) "pending" rfl rfl).2.2
     (.str "zz") rfl (by decide) rfl⟩

/-- Claim C8, counterexample: an event with the unknown topic `bogus` whose
payload parses but lacks `honeypot_id` raises `KeyError` before the topic
check is reached — an exception escapes, and the loop halts without
processing the next event. -/
theorem C8_counterexample :
    persist_session scDB false 0 0 (asciiBytes "\x7b\x7d") "bogus" =
      (scDB, some PyError.keyError) ∧
    runLoop scDB [⟨"bogus", asciiBytes "\x7b\x7d", false, 0, 0⟩, scHsEvent] =
      (scDB, some PyError.keyError) :=
  ⟨rfl, rfl⟩

/-- Claim C8 (amended): an unknown-topic event is logged and dropped
without raising, leaving the store unchanged and the loop running — provided
its payload decodes and parses, the `pending` classification row exists, and
its honeypot reference is present, non-null and resolvable; an unknown-topic
event failing one of those earlier steps raises like any other event. -/
theorem C8_unknown_topic_dropped (st : DB) (cfg : Bool) (nL nU : Int)
    (payload : List Nat) (tp : String) (data hidV : JVal) (cl hp : String)
    (hdec : decodePayload payload = .ok data)
    (hcl : queryOne (st.classifications.filter (fun c => c == "pending")) = .ok cl)
    (hid : dictGet data "honeypot_id" = .ok hidV)
    (hnn : ¬(hidV = JVal.null))
    (hhp : queryOne (st.honeypots.filter (fun h => JVal.str h == hidV)) = .ok hp)
    (ht1 : ¬(tp = SESSION_HONEYPOT)) (ht2 : ¬(tp = SESSION_CLIENT)) :
    persist_session st cfg nL nU payload tp = (st, none) ∧
    ∀ rest : List Event,
      runLoop st (⟨tp, payload, cfg, nL, nU⟩ :: rest) = runLoop st rest := by
  have hph : persistPhase1 st cfg nL nU payload tp = .ok (st, none) := by
    simp [persistPhase1, hdec, hcl, hid, hnn, hhp, ht1, ht2, except_ok_bind]
  have hps : persist_session st cfg nL nU payload tp = (st, none) := by
    unfold persist_session
    rw [hph]
  refine ⟨hps, ?_⟩
  intro rest
  conv_lhs => rw [runLoop]
  rw [hps]

/-- An unknown-kind record whose honeypot reference resolves. -/
def w8Payload : List Nat := asciiBytes "\x7b\"honeypot_id\": \"h1\"\x7d"

/-- Claim C8, witness: a well-formed record on an unknown topic is dropped
silently and the loop continues with the next event. -/
theorem C8_unknown_topic_dropped_witness :
    persist_session scDB false 0 0 w8Payload "bogus" = (scDB, none) ∧
    runLoop scDB [⟨"bogus", w8Payload, false, 0, 0⟩, scHsEvent] =
      runLoop scDB [scHsEvent] :=
  ⟨(C8_unknown_topic_dropped scDB false 0 0 w8Payload "bogus"
      (JVal.obj [("honeypot_id", .str "h1")]) (.str "h1") "pending" "h1"
      rfl rfl rfl (by decide) rfl (by decide) (by decide)).1,
   (C8_unknown_topic_dropped scDB false 0 0 w8Payload "bogus"
      (JVal.obj [("honeypot_id", .str "h1")]) (.str "h1") "pending" "h1"
      rfl rfl rfl (by decide) rfl (by decide) (by decide)).2 [scHsEvent]⟩

end Beeswarm
